import Mathlib

/-!
Shallow embedding of the tectonic core slice: the TeX engine bridge
(`src/engines/tex.rs`), the status backends (`src/status/plain.rs`,
`src/status/termcolor.rs`) and the command-line driver
(`src/bin/tectonic.rs`), together with theorems checking the
specification's claims about them.
-/

namespace Tectonic


/-- `TexResult` from `src/engines/tex.rs`: the non-fatal completion states
of a TeX pass. -/
inductive TexResult
  | Spotless
  | Warnings
  | Errors
deriving DecidableEq, Repr

/-- Modelled from the spec: the error-kind taxonomy of the crate's
`errors` module, which is not part of the given sources. Only the
constructors the given sources use are modelled: `Msg` (generic message
errors, used for fatal engine messages, internal errors and driver
configuration errors), `EngineError` (the native engine signalled Fatal,
carrying the engine name), `NulError` (a `CString::new` failure), and an
opaque-to-us `Other` bucket for kinds the modelled code never constructs
but may receive from collaborators. -/
inductive ErrorKind
  | Msg (s : String)
  | EngineError (engine : String)
  | NulError
  | Other (tag : String)
deriving DecidableEq, Repr

/-- `UnstableOptions` from `src/unstable_opts.rs` (not in the given
sources); the two fields read by `TexEngine::process` are modelled. -/
structure UnstableOptions where
  continue_on_errors : Bool
  shell_escape : Bool
deriving DecidableEq, Repr

/-- `TexEngine` from `src/engines/tex.rs`. `build_date` is a `SystemTime`
in the source; it is modelled as whole seconds since the Unix epoch, so
`UNIX_EPOCH` is `0`. -/
structure TexEngine where
  halt_on_error : Bool
  initex_mode : Bool
  synctex_enabled : Bool
  semantic_pagination_enabled : Bool
  build_date : Nat
deriving DecidableEq, Repr

/-- `impl Default for TexEngine` (`src/engines/tex.rs` lines 43-53). -/
def TexEngine.default : TexEngine :=
  { halt_on_error := true
    initex_mode := false
    synctex_enabled := false
    semantic_pagination_enabled := false
    build_date := 0 }

/-- `TexEngine::new` (`src/engines/tex.rs` lines 56-58): delegates to
`Default`. -/
def TexEngine.new : TexEngine := TexEngine.default

/-- `TexEngine::halt_on_error_mode`. -/
def TexEngine.halt_on_error_mode (e : TexEngine) (halt_on_error : Bool) : TexEngine :=
  { e with halt_on_error := halt_on_error }

/-- `TexEngine::initex_mode` setter. -/
def TexEngine.set_initex_mode (e : TexEngine) (initex : Bool) : TexEngine :=
  { e with initex_mode := initex }

/-- `TexEngine::synctex` setter. -/
def TexEngine.synctex (e : TexEngine) (synctex_enabled : Bool) : TexEngine :=
  { e with synctex_enabled := synctex_enabled }

/-- `TexEngine::semantic_pagination` setter. -/
def TexEngine.semantic_pagination (e : TexEngine) (enabled : Bool) : TexEngine :=
  { e with semantic_pagination_enabled := enabled }

/-- `TexEngine::build_date` setter. -/
def TexEngine.set_build_date (e : TexEngine) (date : Nat) : TexEngine :=
  { e with build_date := date }

/-- The observable events of one `TexEngine::process` call, in program
order: taking and dropping the process-wide `ENGINE_LOCK`, each
`tt_xetex_set_int_variable` call, the `tex_simple_main` FFI call, and the
`tt_get_error_message` fatal-message fetch. -/
inductive PEvent
  | acquire
  | setVar (name : String) (value : Int)
  | callEngine (format : String) (input : String) (buildDate : Nat)
  | getErrorMessage
  | release
deriving DecidableEq, Repr

/-- `CString::new` succeeds exactly when the Rust string has no interior
NUL byte. -/
def cstringOk (s : String) : Bool := !(s.data.contains (Char.ofNat 0))

/-- Rust `bool as c_int`. -/
def boolToInt (b : Bool) : Int := if b then 1 else 0

/-- The message of the unexpected-history-code internal error
(`src/engines/tex.rs` lines 170-174). -/
def internalHistoryMsg (x : Int) : String :=
  "internal error: unexpected history value " ++ toString x

/-- `TexEngine::process` (`src/engines/tex.rs` lines 106-177), as a pure
function of the engine configuration, the unstable options, the two file
names, and the native engine's behaviour (its completion code and, for
code 3, the fatal message exposed by `tt_get_error_message`). Returns the
event trace of the call and the `Result` value. The I/O stack, event
backend and status backend parameters of the source function are opaque
to the bridge logic and are not modelled. -/
def TexEngine.process (e : TexEngine) (u : UnstableOptions)
    (format_file_name : String) (input_file_name : String)
    (code : Int) (fatalMsg : String) :
    List PEvent × Except ErrorKind TexResult :=
  -- let _guard = super::ENGINE_LOCK.lock().unwrap();
  if cstringOk format_file_name && cstringOk input_file_name then
    -- initialize globals
    let halt_on_error := e.halt_on_error
    let halt_on_error := if u.continue_on_errors then false else halt_on_error
    let v : Int := if halt_on_error then 1 else 0
    let settings : List PEvent :=
      [PEvent.setVar "halt_on_error_p" v,
       PEvent.setVar "shell_escape_enabled" (boolToInt u.shell_escape),
       PEvent.setVar "in_initex_mode" (boolToInt e.initex_mode),
       PEvent.setVar "synctex_enabled" (boolToInt e.synctex_enabled),
       PEvent.setVar "semantic_pagination_enabled" (boolToInt e.semantic_pagination_enabled)]
    let call := PEvent.callEngine format_file_name input_file_name e.build_date
    -- the fatal-message fetch happens exactly in the code-3 arm of the match
    let body : List PEvent :=
      settings ++ [call] ++ (if code = 3 then [PEvent.getErrorMessage] else [])
    let result : Except ErrorKind TexResult :=
      if code = 0 then Except.ok TexResult.Spotless
      else if code = 1 then Except.ok TexResult.Warnings
      else if code = 2 then Except.ok TexResult.Errors
      else if code = 3 then Except.error (ErrorKind.Msg fatalMsg)
      else Except.error (ErrorKind.Msg (internalHistoryMsg code))
    (PEvent.acquire :: body ++ [PEvent.release], result)
  else
    -- a CString::new failure propagates with the lock guard dropped on return
    ([PEvent.acquire, PEvent.release], Except.error ErrorKind.NulError)

/-- First `setVar` event in a trace for a given variable name. -/
def findSetVar (name : String) : List PEvent → Option Int
  | [] => none
  | PEvent.setVar n v :: rest => if n = name then some v else findSetVar name rest
  | _ :: rest => findSetVar name rest

/-! ### A schedule model for the process-wide engine lock

`TexEngine::process` brackets its whole body in `ENGINE_LOCK`. To state
the mutual-exclusion claim we model a two-thread schedule as a list of
thread-tagged `PEvent`s whose per-thread projections are the two calls'
traces, and a checker `lockValid` enforcing `std::sync::Mutex` semantics:
`acquire` blocks while any thread holds the lock, and only the holder
may `release`. -/

/-- Is this event the lock acquisition? -/
def isAcquire : PEvent → Bool
  | PEvent.acquire => true
  | _ => false

/-- Is this event the lock release? -/
def isRelease : PEvent → Bool
  | PEvent.release => true
  | _ => false

/-- Tag every event of a trace with the thread that performs it. -/
def tagT (t : Bool) (l : List PEvent) : List (Bool × PEvent) :=
  l.map (fun e => (t, e))

/-- Per-thread projection of a schedule. A list `s` is an interleaving of
traces `A` and `B` exactly when `projT false s = A` and
`projT true s = B`. -/
def projT (t : Bool) (s : List (Bool × PEvent)) : List PEvent :=
  (s.filter (fun p => p.1 == t)).map (fun p => p.2)

/-- Mutex semantics, checked along a schedule: the first argument is the
current holder of the lock. `acquire` requires the lock to be free,
`release` may only be performed by the holder; other events are
unconstrained. -/
def lockValid : Option Bool → List (Bool × PEvent) → Bool
  | _, [] => true
  | none, (t, e) :: rest =>
      if isAcquire e then lockValid (some t) rest
      else if isRelease e then false
      else lockValid none rest
  | some t0, (t, e) :: rest =>
      if isAcquire e then false
      else if isRelease e then t == t0 && lockValid none rest
      else lockValid (some t0) rest

/-- A trace has no lock operation. -/
def lockFree : List PEvent → Bool
  | [] => true
  | e :: l => !isAcquire e && !isRelease e && lockFree l

/-- A trace that is one whole critical section: it acquires the lock as
its very first action, releases it as its very last, and does nothing
with the lock in between. -/
def CriticalSection (l : List PEvent) : Prop :=
  ∃ mid, l = PEvent.acquire :: mid ++ [PEvent.release] ∧ lockFree mid = true

/-! ### Status backends (`src/status/plain.rs`, `src/status/termcolor.rs`)

The backends are modelled as pure functions from their inputs to the list
of writes they perform, in order. -/

/-- `MessageKind` from the crate's `status` module (declaration not in
the given sources; the three kinds are exactly the ones matched on by
both backends). -/
inductive MessageKind
  | Note
  | Warning
  | Error
deriving DecidableEq, Repr

/-- Modelled from the spec: `ChatterLevel` from the crate's `status`
module (declaration not in the given sources). The spec says a minimal
chatter level suppresses Note-kind messages; both backends compare with
`<=`/`>` against `Minimal`, so the level is modelled as the two-point
order `Minimal < Normal`, compared through `toNat`. -/
inductive ChatterLevel
  | Minimal
  | Normal
deriving DecidableEq, Repr

/-- Order embedding used for the `<=`/`>` comparisons on `ChatterLevel`. -/
def ChatterLevel.toNat : ChatterLevel → Nat
  | ChatterLevel.Minimal => 0
  | ChatterLevel.Normal => 1

/-- Modelled from the spec: the error-chain style `Error` value of the
crate's `errors` module (not in the given sources). `iter()` walks the
chain starting at the primary message, followed by the causes;
`backtrace()` optionally yields a captured backtrace, rendered here as
its debug-printed text. -/
structure ErrorC where
  message : String
  causes : List String
  backtrace : Option String
deriving DecidableEq, Repr

/-- `err.iter()`: the primary message then each cause, in order. -/
def ErrorC.iter (e : ErrorC) : List String := e.message :: e.causes

/-- The two standard streams a backend writes to. -/
inductive OutStream
  | stdout
  | stderr
deriving DecidableEq, Repr

/-- `PlainStatusBackend` (`src/status/plain.rs`). -/
structure PlainStatusBackend where
  chatter : ChatterLevel
deriving DecidableEq, Repr

/-- The `for item in err.iter()` loop of `PlainStatusBackend::ereport`
(`src/status/plain.rs` lines 30-38): the prefix becomes `"caused by: "`
and the stream becomes stderr after the first item. -/
def ereportLoop : List String → String → Bool → List (OutStream × String)
  | [], _, _ => []
  | item :: rest, pfx, use_stdout =>
      ((if use_stdout then OutStream.stdout else OutStream.stderr), pfx ++ " " ++ item) ::
        ereportLoop rest "caused by: " false

/-- `PlainStatusBackend::ereport` (`src/status/plain.rs` lines 16-43). -/
def PlainStatusBackend.ereport (b : PlainStatusBackend) (kind : MessageKind) (err : ErrorC) :
    List (OutStream × String) :=
  if kind = MessageKind.Note ∧ b.chatter.toNat ≤ ChatterLevel.Minimal.toNat then []
  else
    let pfx := match kind with
      | MessageKind.Note => "note:"
      | MessageKind.Warning => "warning:"
      | MessageKind.Error => "error:"
    ereportLoop err.iter pfx (kind == MessageKind.Note) ++
      (match err.backtrace with
       | some bt => [(OutStream.stderr, "debugging: backtrace follows:\n" ++ bt)]
       | none => [])

/-- The `for item in err.iter()` loop of
`PlainStatusBackend::report_error` (`src/status/plain.rs` lines 48-51):
everything goes to stderr, the prefix becomes `"caused by"` after the
first item. -/
def reportErrorLoop : List String → String → List (OutStream × String)
  | [], _ => []
  | item :: rest, pfx =>
      (OutStream.stderr, pfx ++ ": " ++ item) :: reportErrorLoop rest "caused by"

/-- `PlainStatusBackend::report_error` (`src/status/plain.rs` lines 45-57). -/
def PlainStatusBackend.report_error (_b : PlainStatusBackend) (err : ErrorC) :
    List (OutStream × String) :=
  reportErrorLoop err.iter "error" ++
    (match err.backtrace with
     | some bt => [(OutStream.stderr, "debugging: backtrace follows:"), (OutStream.stderr, bt)]
     | none => [])

/-- `PlainStatusBackend::note_highlighted` (`src/status/plain.rs`
lines 59-63). -/
def PlainStatusBackend.note_highlighted (b : PlainStatusBackend)
    (before highlighted after : String) : List (OutStream × String) :=
  if ChatterLevel.Minimal.toNat < b.chatter.toNat then
    [(OutStream.stdout, "note: " ++ before ++ highlighted ++ after)]
  else []

/-- The four `ColorSpec`s built in `TermcolorStatusBackend::new`. -/
inductive ColorSpecId
  | note
  | highlight
  | warning
  | error
deriving DecidableEq, Repr

/-- One write action of the termcolor backend: setting a color, writing
text to a stream, or resetting the color. -/
inductive TCItem
  | setColor (spec : ColorSpecId)
  | write (stream : OutStream) (text : String)
  | resetColor
deriving DecidableEq, Repr

/-- `TermcolorStatusBackend` (`src/status/termcolor.rs`); the stream
handles and color specs are fixed at construction and carried implicitly
by the model. -/
structure TermcolorStatusBackend where
  chatter : ChatterLevel
deriving DecidableEq, Repr

/-- `TermcolorStatusBackend::styled` (`src/status/termcolor.rs`
lines 51-68); the closure argument is modelled by the text it writes. -/
def TermcolorStatusBackend.styled (b : TermcolorStatusBackend) (kind : MessageKind)
    (text : String) : List TCItem :=
  if kind = MessageKind.Note ∧ b.chatter.toNat ≤ ChatterLevel.Minimal.toNat then []
  else
    let sp : ColorSpecId × OutStream := match kind with
      | MessageKind.Note => (ColorSpecId.note, OutStream.stdout)
      | MessageKind.Warning => (ColorSpecId.warning, OutStream.stderr)
      | MessageKind.Error => (ColorSpecId.error, OutStream.stderr)
    [TCItem.setColor sp.1, TCItem.write sp.2 text, TCItem.resetColor]

/-- `TermcolorStatusBackend::with_stream` (`src/status/termcolor.rs`
lines 70-85). -/
def TermcolorStatusBackend.with_stream (b : TermcolorStatusBackend) (kind : MessageKind)
    (text : String) : List TCItem :=
  if kind = MessageKind.Note ∧ b.chatter.toNat ≤ ChatterLevel.Minimal.toNat then []
  else
    let stream := match kind with
      | MessageKind.Note => OutStream.stdout
      | MessageKind.Warning => OutStream.stderr
      | MessageKind.Error => OutStream.stderr
    [TCItem.write stream text]

/-- `TermcolorStatusBackend::generic_message` (`src/status/termcolor.rs`
lines 87-103): the styled prefix followed by `" {args}\n"` on the same
stream. -/
def TermcolorStatusBackend.generic_message (b : TermcolorStatusBackend) (kind : MessageKind)
    (opfx : Option String) (args : String) : List TCItem :=
  let text := match opfx with
    | some s => s
    | none => match kind with
      | MessageKind.Note => "note:"
      | MessageKind.Warning => "warning:"
      | MessageKind.Error => "error:"
  b.styled kind text ++ b.with_stream kind (" " ++ args ++ "\n")

/-- The `for item in err.iter()` loop of
`TermcolorStatusBackend::ereport` (`src/status/termcolor.rs`
lines 123-128): after the first item the prefix becomes `"caused by:"`
and the kind is downgraded to `Error`. -/
def tcEreportLoop (b : TermcolorStatusBackend) :
    List String → MessageKind → Option String → List TCItem
  | [], _, _ => []
  | item :: rest, kind, opfx =>
      b.generic_message kind opfx item ++
        tcEreportLoop b rest MessageKind.Error (some "caused by:")

/-- `TermcolorStatusBackend::ereport` (`src/status/termcolor.rs`
lines 117-136). The backtrace block uses the loop-mutated `kind`. -/
def TermcolorStatusBackend.ereport (b : TermcolorStatusBackend) (kind : MessageKind)
    (err : ErrorC) : List TCItem :=
  if kind = MessageKind.Note ∧ b.chatter.toNat ≤ ChatterLevel.Minimal.toNat then []
  else
    let kindAfter := if err.iter.isEmpty then kind else MessageKind.Error
    tcEreportLoop b err.iter kind none ++
      (match err.backtrace with
       | some bt =>
           b.generic_message kindAfter (some "debugging:") "backtrace follows:" ++
             b.with_stream kindAfter (bt ++ "\n")
       | none => [])

/-- The `for item in err.iter()` loop of
`TermcolorStatusBackend::report_error` (`src/status/termcolor.rs`
lines 142-149), with its `first` flag. -/
def tcReportErrorLoop (b : TermcolorStatusBackend) : List String → Bool → List TCItem
  | [], _ => []
  | item :: rest, first =>
      (if first then b.generic_message MessageKind.Error none item
       else b.generic_message MessageKind.Error (some "caused by:") item) ++
        tcReportErrorLoop b rest false

/-- `TermcolorStatusBackend::report_error` (`src/status/termcolor.rs`
lines 138-157). -/
def TermcolorStatusBackend.report_error (b : TermcolorStatusBackend) (err : ErrorC) :
    List TCItem :=
  tcReportErrorLoop b err.iter true ++
    (match err.backtrace with
     | some bt =>
         b.generic_message MessageKind.Error (some "debugging:") "backtrace follows:" ++
           b.with_stream MessageKind.Error (bt ++ "\n")
     | none => [])

/-- `TermcolorStatusBackend::note_highlighted` (`src/status/termcolor.rs`
lines 159-169). -/
def TermcolorStatusBackend.note_highlighted (b : TermcolorStatusBackend)
    (before highlighted after : String) : List TCItem :=
  if ChatterLevel.Minimal.toNat < b.chatter.toNat then
    [TCItem.write OutStream.stdout before,
     TCItem.setColor ColorSpecId.highlight,
     TCItem.write OutStream.stdout highlighted,
     TCItem.resetColor,
     TCItem.write OutStream.stdout (after ++ "\n")]
  else []

/-! ### The command-line driver (`src/bin/tectonic.rs`)

`inner` is modelled as a pure function of the parsed CLI options and an
environment record that carries the outcomes of the external calls the
driver makes (configuration lookup, path decomposition of the input,
filesystem checks, bundle construction, the environment variable, the
clock, and the session's create/run results). It returns the ordered
list of driver events (status notes, session creation and run, error
dumping) together with the outcome of the call. -/

/-- Modelled from the spec: the `OutputFormat` enumeration of the driver
crate (not in the given sources); its values are the CLI's
`possible_values` for `--outfmt`. -/
inductive OutputFormat
  | pdf
  | html
  | xdv
  | aux
  | fmt
deriving DecidableEq, Repr

/-- Modelled from the spec: `OutputFormat::from_str` over the CLI's
`possible_values(&["pdf", "html", "xdv", "aux", "fmt"])`. -/
def OutputFormat.fromStr (s : String) : Option OutputFormat :=
  if s = "pdf" then some OutputFormat.pdf
  else if s = "html" then some OutputFormat.html
  else if s = "xdv" then some OutputFormat.xdv
  else if s = "aux" then some OutputFormat.aux
  else if s = "fmt" then some OutputFormat.fmt
  else none

/-- Modelled from the spec: the `PassSetting` enumeration of the driver
crate (not in the given sources); its values are the CLI's
`possible_values` for `--pass`. -/
inductive PassSetting
  | default
  | tex
  | bibtex_first
deriving DecidableEq, Repr

/-- Modelled from the spec: `PassSetting::from_str` over the CLI's
`possible_values(&["default", "tex", "bibtex_first"])`. -/
def PassSetting.fromStr (s : String) : Option PassSetting :=
  if s = "default" then some PassSetting.default
  else if s = "tex" then some PassSetting.tex
  else if s = "bibtex_first" then some PassSetting.bibtex_first
  else none

/-- Modelled from the spec: `ProcessingSessionBuilder` (driver crate, not
in the given sources), reduced to the configuration fields the
command-line driver sets. Option-valued fields start unset. -/
structure SessionBuilder where
  unstables : UnstableOptions := ⟨false, false⟩
  formatName : String := ""
  keepLogs : Bool := false
  keepIntermediates : Bool := false
  formatCachePath : String := ""
  synctex : Bool := false
  outputFormat : OutputFormat := OutputFormat.pdf
  pass : PassSetting := PassSetting.default
  reruns : Option Nat := none
  makefileOutputPath : Option String := none
  texInputName : Option String := none
  outputDir : Option String := none
  primaryInputPath : Option String := none
  printStdout : Bool := false
  hides : List String := []
  bundleSet : Bool := false
  buildDate : Option Nat := none
deriving DecidableEq, Repr

/-- `CliOptions` (`src/bin/tectonic.rs` lines 24-81). Paths are modelled
as strings; `unstable` carries the already-folded `UnstableOptions`
(`UnstableOptions::from_unstable_args` lives outside the given
sources). -/
structure CliOptions where
  input : Option String
  format : String
  bundle : Option String
  web_bundle : Option String
  chatter_level : String
  cli_color : String
  only_cached : Bool
  outfmt : String
  makefile_rules : Option String
  pass : String
  reruns : Option Nat
  keep_intermediates : Bool
  keep_logs : Bool
  synctex : Bool
  hide : Option (List String)
  print_stdout : Bool
  outdir : Option String
  unstable : UnstableOptions
deriving DecidableEq, Repr

/-- The environment of one `inner` call: outcomes of every external call
the driver makes, in the order the source makes them.
`fileName`/`parent` are the results of `Path::file_name`/`Path::parent`
on the input path; `memStdout` is the content of the session's in-memory
file map under its stdout key after the run. -/
structure Env where
  formatCachePath : Except ErrorKind String
  fileName : Option String
  parent : Option String
  outdirIsDir : Bool
  bundleResult : Except ErrorKind Unit
  sourceDateEpoch : Option String
  now : Nat
  sessCreate : Except ErrorKind Unit
  runResult : Except ErrorKind Unit
  memStdout : Option (List Nat)
deriving Repr

/-- The observable events of one `inner` call, in program order. -/
inductive DriverEvent
  | note (s : String)
  | errorReport (s : String)
  | sessionCreate (b : SessionBuilder)
  | sessionRun
  | dumpErrorLogs (data : List Nat)
deriving DecidableEq, Repr

/-- The outcome of `inner`: normal return, error return, or a panic
(an `expect`/`unwrap` failure). -/
inductive DriverOutcome
  | ok
  | err (kind : ErrorKind)
  | panic (msg : String)
deriving DecidableEq, Repr

/-- Is this a plain status note? -/
def isNoteEvent : DriverEvent → Bool
  | DriverEvent.note _ => true
  | _ => false

/-- `u64::from_str_radix(s, 10)` as used for `SOURCE_DATE_EPOCH`
(`src/bin/tectonic.rs` line 179): an optional leading plus sign, then at
least one decimal digit, with the value required to fit in a `u64`. -/
def parseDecimalU64 (s : String) : Option Nat :=
  let cs := s.data
  let cs := match cs with
    | c :: rest => if c = '+' then rest else c :: rest
    | [] => []
  if cs.isEmpty then none
  else if cs.all Char.isDigit then
    let n := cs.foldl (fun acc c => acc * 10 + (c.toNat - 48)) 0
    if n < 2 ^ 64 then some n else none
  else none

/-- `src/bin/tectonic.rs` lines 188-204: create the session, run it, and
on an `EngineError` dump the captured chatter stream (when the in-memory
stdout entry exists) before returning the error. -/
def innerRun (env : Env) (evs : List DriverEvent) (b : SessionBuilder) :
    List DriverEvent × DriverOutcome :=
  let evs := evs ++ [DriverEvent.sessionCreate b]
  match env.sessCreate with
  | Except.error e => (evs, DriverOutcome.err e)
  | Except.ok _ =>
    let evs := evs ++ [DriverEvent.sessionRun]
    match env.runResult with
    | Except.ok _ => (evs, DriverOutcome.ok)
    | Except.error e =>
      match e with
      | ErrorKind.EngineError engine =>
        match env.memStdout with
        | some output =>
            (evs ++
              [DriverEvent.errorReport
                ("something bad happened inside " ++ engine ++ "; its output follows:\n"),
               DriverEvent.dumpErrorLogs output],
             DriverOutcome.err (ErrorKind.EngineError engine))
        | none => (evs, DriverOutcome.err (ErrorKind.EngineError engine))
      | k => (evs, DriverOutcome.err k)

/-- `src/bin/tectonic.rs` lines 156-186: `print_stdout`, hidden paths,
the only-cached note, bundle construction (whichever of the three bundle
branches is taken, its outcome is `env.bundleResult`), and the build
date from `SOURCE_DATE_EPOCH` (the Unix epoch plus the parsed seconds)
or the current time. -/
def innerBundleAndDate (args : CliOptions) (env : Env) (evs : List DriverEvent)
    (b : SessionBuilder) : List DriverEvent × DriverOutcome :=
  let b := { b with printStdout := args.print_stdout,
                    hides := match args.hide with
                      | some items => items
                      | none => [] }
  let evs := evs ++
    (if args.only_cached then [DriverEvent.note "using only cached resource files"] else [])
  match env.bundleResult with
  | Except.error e => (evs, DriverOutcome.err e)
  | Except.ok _ =>
    let b := { b with bundleSet := true }
    match env.sourceDateEpoch with
    | some s =>
      match parseDecimalU64 s with
      | none => (evs, DriverOutcome.panic "invalid build date (not a number)")
      -- UNIX_EPOCH (0 seconds) .checked_add(Duration::from_secs(epoch)):
      -- the resulting SystemTime holds seconds in an i64, so the addition
      -- overflows for epoch >= 2^63 and the expect panics
      | some epoch =>
          if epoch < 2 ^ 63 then innerRun env evs { b with buildDate := some epoch }
          else (evs, DriverOutcome.panic "time overflow")
    | none => innerRun env evs { b with buildDate := some env.now }

/-- `src/bin/tectonic.rs` lines 144-152: an explicitly given output
directory must exist and be a directory. -/
def innerOutdir (args : CliOptions) (env : Env) (evs : List DriverEvent)
    (b : SessionBuilder) : List DriverEvent × DriverOutcome :=
  match args.outdir with
  | some output_dir =>
      if env.outdirIsDir then
        innerBundleAndDate args env evs { b with outputDir := some output_dir }
      else
        (evs, DriverOutcome.err (ErrorKind.Msg
          ("output directory \"" ++ output_dir ++ "\" does not exist")))
  | none => innerBundleAndDate args env evs b

/-- `inner` (`src/bin/tectonic.rs` lines 82-205). The source error
messages containing an apostrophe are rendered with "cannot". -/
def inner (args : CliOptions) (env : Env) : List DriverEvent × DriverOutcome :=
  match env.formatCachePath with
  | Except.error e => ([], DriverOutcome.err e)
  | Except.ok fcp =>
    match OutputFormat.fromStr args.outfmt with
    | none => ([], DriverOutcome.panic "OutputFormat unwrap failed")
    | some ofmt =>
      match PassSetting.fromStr args.pass with
      | none => ([], DriverOutcome.panic "PassSetting unwrap failed")
      | some ps =>
        let b : SessionBuilder :=
          { unstables := args.unstable
            formatName := args.format
            keepLogs := args.keep_logs
            keepIntermediates := args.keep_intermediates
            formatCachePath := fcp
            synctex := args.synctex
            outputFormat := ofmt
            pass := ps
            reruns := args.reruns
            makefileOutputPath := args.makefile_rules }
        match args.input with
        | none => ([], DriverOutcome.err (ErrorKind.Msg
            "No input specified.\n\nFor more information try --help"))
        | some input_path =>
          if input_path = "-" then
            innerOutdir args env
              [DriverEvent.note
                "reading from standard input; outputs will appear under the base name \"texput\""]
              { b with texInputName := some "texput.tex", outputDir := some "" }
          else
            let b := { b with primaryInputPath := some input_path }
            match env.fileName with
            | none => ([], DriverOutcome.err (ErrorKind.Msg
                ("cannot figure out a basename for input path \"" ++ input_path ++ "\"")))
            | some fname =>
              let b := { b with texInputName := some fname }
              match env.parent with
              | none => ([], DriverOutcome.err (ErrorKind.Msg
                  ("cannot figure out a parent directory for input path \""
                    ++ input_path ++ "\"")))
              | some par =>
                innerOutdir args env [] { b with outputDir := some par }

/-! ### Sample driver inputs used by the witnesses -/

/-- A CLI invocation reading from standard input with default options. -/
def argsStdin : CliOptions :=
  { input := some "-", format := "latex", bundle := none, web_bundle := none,
    chatter_level := "default", cli_color := "auto", only_cached := false,
    outfmt := "pdf", makefile_rules := none, pass := "default", reruns := none,
    keep_intermediates := false, keep_logs := false, synctex := false,
    hide := none, print_stdout := false, outdir := none, unstable := ⟨false, false⟩ }

/-- The same CLI invocation with no input argument. -/
def argsNoInput : CliOptions := { argsStdin with input := none }

/-- An environment with a pinned `SOURCE_DATE_EPOCH` and a clean run. -/
def envPinned : Env :=
  { formatCachePath := Except.ok "cache", fileName := none, parent := none,
    outdirIsDir := true, bundleResult := Except.ok (), sourceDateEpoch := some "1234",
    now := 999, sessCreate := Except.ok (), runResult := Except.ok (), memStdout := none }

/-- The pinned environment, but the session run fails with an engine
error and the in-memory stdout entry holds two bytes. -/
def envEngineError : Env :=
  { envPinned with runResult := Except.error (ErrorKind.EngineError "xetex"),
                   memStdout := some [104, 105] }

/-- The pinned environment with `SOURCE_DATE_EPOCH` set to `2 ^ 63`
(written in decimal), one past the largest representable system time. -/
def envOverflow : Env :=
  { envPinned with sourceDateEpoch := some "9223372036854775808" }

theorem bool_ne_not (t : Bool) : t ≠ !t := by cases t <;> simp

theorem not_ne_bool (t : Bool) : (!t) ≠ t := by cases t <;> simp

theorem tagT_cons (t : Bool) (e : PEvent) (l : List PEvent) :
    tagT t (e :: l) = (t, e) :: tagT t l := rfl

theorem projT_cons_same (t : Bool) (e : PEvent) (tl : List (Bool × PEvent)) :
    projT t ((t, e) :: tl) = e :: projT t tl := by
  simp [projT]

theorem projT_cons_other (t t1 : Bool) (e : PEvent) (tl : List (Bool × PEvent))
    (h : t1 ≠ t) : projT t ((t1, e) :: tl) = projT t tl := by
  simp [projT, h]

theorem lockFree_cons {m : PEvent} {l : List PEvent} (h : lockFree (m :: l) = true) :
    isAcquire m = false ∧ isRelease m = false ∧ lockFree l = true := by
  simp [lockFree, Bool.and_eq_true, Bool.not_eq_true'] at h
  exact ⟨h.1.1, h.1.2, h.2⟩

theorem projT_nil_all_other (t : Bool) :
    ∀ s : List (Bool × PEvent), projT t s = [] → s = tagT (!t) (projT (!t) s) := by
  intro s
  induction s with
  | nil => intro _; rfl
  | cons hd tl ih =>
      intro h
      obtain ⟨t1, e1⟩ := hd
      by_cases ht : t1 = t
      · rw [ht, projT_cons_same] at h
        cases h
      · have ht1 : t1 = !t := by cases t <;> cases t1 <;> simp_all
        rw [projT_cons_other t t1 e1 tl ht] at h
        have htl := ih h
        rw [ht1, projT_cons_same, tagT_cons, ← htl]

theorem lock_critical_runs_alone (t : Bool) :
    ∀ (mid : List PEvent) (B : List PEvent) (s : List (Bool × PEvent)),
    lockFree mid = true →
    (∃ Bt, B = PEvent.acquire :: Bt) →
    projT t s = mid ++ [PEvent.release] →
    projT (!t) s = B →
    lockValid (some t) s = true →
    s = tagT t (mid ++ [PEvent.release]) ++ tagT (!t) B := by
  intro mid
  induction mid with
  | nil =>
      intro B s _ hB hpt hpo hv
      cases s with
      | nil => simp [projT] at hpt
      | cons hd tl =>
          obtain ⟨t1, e1⟩ := hd
          by_cases ht : t1 = t
          · rw [ht] at hpt hpo hv ⊢
            rw [projT_cons_same] at hpt
            have hpt' : e1 = PEvent.release ∧ projT t tl = [] := by simpa using hpt
            obtain ⟨he1, htl⟩ := hpt'
            subst he1
            rw [projT_cons_other (!t) t PEvent.release tl (bool_ne_not t)] at hpo
            have hv' : lockValid none tl = true := by
              simpa [lockValid, isAcquire, isRelease] using hv
            have hother := projT_nil_all_other t tl htl
            rw [hother, hpo]
            simp [tagT]
          · have ht1 : t1 = !t := by cases t <;> cases t1 <;> simp_all
            obtain ⟨Bt, hBt⟩ := hB
            rw [ht1] at hpo hv ⊢
            rw [projT_cons_same, hBt] at hpo
            have hpo' : e1 = PEvent.acquire ∧ projT (!t) tl = Bt := by simpa using hpo
            exact absurd hv (by simp [hpo'.1, lockValid, isAcquire])
  | cons m mid' ih =>
      intro B s hmf hB hpt hpo hv
      obtain ⟨hma, hmr, hmf'⟩ := lockFree_cons hmf
      cases s with
      | nil => simp [projT] at hpt
      | cons hd tl =>
          obtain ⟨t1, e1⟩ := hd
          by_cases ht : t1 = t
          · rw [ht] at hpt hpo hv ⊢
            rw [projT_cons_same] at hpt
            have hpt' : e1 = m ∧ projT t tl = mid' ++ [PEvent.release] := by simpa using hpt
            obtain ⟨he1, htl⟩ := hpt'
            rw [he1] at hv hpo ⊢
            rw [projT_cons_other (!t) t m tl (bool_ne_not t)] at hpo
            have hv' : lockValid (some t) tl = true := by
              simpa [lockValid, hma, hmr] using hv
            have := ih B tl hmf' hB htl hpo hv'
            rw [this]
            simp [tagT]
          · have ht1 : t1 = !t := by cases t <;> cases t1 <;> simp_all
            obtain ⟨Bt, hBt⟩ := hB
            rw [ht1] at hpo hv ⊢
            rw [projT_cons_same, hBt] at hpo
            have hpo' : e1 = PEvent.acquire ∧ projT (!t) tl = Bt := by simpa using hpo
            exact absurd hv (by simp [hpo'.1, lockValid, isAcquire])

theorem lock_serializes (A B : List PEvent) (s : List (Bool × PEvent))
    (hA : CriticalSection A) (hB : CriticalSection B)
    (hSA : projT false s = A) (hSB : projT true s = B)
    (hV : lockValid none s = true) :
    s = tagT false A ++ tagT true B ∨ s = tagT true B ++ tagT false A := by
  obtain ⟨midA, hAeq, hAfree⟩ := hA
  obtain ⟨midB, hBeq, hBfree⟩ := hB
  cases s with
  | nil => simp [projT, hAeq] at hSA
  | cons hd tl =>
      obtain ⟨t1, e1⟩ := hd
      cases t1 with
      | false =>
          rw [projT_cons_same, hAeq] at hSA
          have he1 : e1 = PEvent.acquire ∧ projT false tl = midA ++ [PEvent.release] := by
            simpa using hSA
          obtain ⟨he1, htl⟩ := he1
          subst he1
          have hv' : lockValid (some false) tl = true := by
            simpa [lockValid, isAcquire] using hV
          have hpo : projT (!false) tl = B := by
            rw [projT_cons_other true false PEvent.acquire tl (by simp)] at hSB
            simpa using hSB
          have := lock_critical_runs_alone false midA B tl hAfree ⟨midB ++ [PEvent.release], hBeq⟩ htl hpo hv'
          left
          rw [hAeq, this]
          simp [tagT]
      | true =>
          rw [projT_cons_same, hBeq] at hSB
          have he1 : e1 = PEvent.acquire ∧ projT true tl = midB ++ [PEvent.release] := by
            simpa using hSB
          obtain ⟨he1, htl⟩ := he1
          subst he1
          have hv' : lockValid (some true) tl = true := by
            simpa [lockValid, isAcquire] using hV
          have hpo : projT (!true) tl = A := by
            rw [projT_cons_other false true PEvent.acquire tl (by simp)] at hSA
            simpa using hSA
          have := lock_critical_runs_alone true midB A tl hBfree ⟨midA ++ [PEvent.release], hAeq⟩ htl hpo hv'
          right
          rw [hBeq, this]
          simp [tagT]

/-- Every `TexEngine::process` trace is one whole critical section of the
engine lock: the lock is taken first, dropped last, and the body performs
no lock operation. -/
theorem process_criticalSection (e : TexEngine) (u : UnstableOptions)
    (f i : String) (code : Int) (m : String) :
    CriticalSection (e.process u f i code m).1 := by
  unfold TexEngine.process
  by_cases h : (cstringOk f && cstringOk i) = true
  · simp only [h, if_true]
    refine ⟨_, rfl, ?_⟩
    by_cases h3 : code = 3 <;>
      simp [h3, lockFree, isAcquire, isRelease]
  · simp only [h, if_false]
    exact ⟨[], rfl, rfl⟩

/-! ### Claims about the engine bridge -/

/-- C10: a freshly constructed `TexEngine` (via `new` or `Default`) has
halt-on-error enabled, initex mode disabled, SyncTeX disabled, semantic
pagination disabled, and a build date equal to the Unix epoch. -/
theorem c10_tex_engine_defaults :
    TexEngine.new = TexEngine.default ∧
    TexEngine.new.halt_on_error = true ∧
    TexEngine.new.initex_mode = false ∧
    TexEngine.new.synctex_enabled = false ∧
    TexEngine.new.semantic_pagination_enabled = false ∧
    TexEngine.new.build_date = 0 :=
  ⟨rfl, rfl, rfl, rfl, rfl, rfl⟩

/-- C1: `TexEngine::process` maps the native engine's completion code to
the pass result: 0 is `Ok(Spotless)`, 1 is `Ok(Warnings)`, 2 is
`Ok(Errors)`, 3 is an `Err` carrying the fatal message retrieved from the
engine, and every other code is an internal-error `Err`. -/
theorem c1_completion_code_mapping (e : TexEngine) (u : UnstableOptions)
    (fmt inp : String) (code : Int) (msg : String)
    (hf : cstringOk fmt = true) (hi : cstringOk inp = true) :
    (code = 0 → (e.process u fmt inp code msg).2 = Except.ok TexResult.Spotless) ∧
    (code = 1 → (e.process u fmt inp code msg).2 = Except.ok TexResult.Warnings) ∧
    (code = 2 → (e.process u fmt inp code msg).2 = Except.ok TexResult.Errors) ∧
    (code = 3 → (e.process u fmt inp code msg).2 = Except.error (ErrorKind.Msg msg)) ∧
    (code ≠ 0 → code ≠ 1 → code ≠ 2 → code ≠ 3 →
      (e.process u fmt inp code msg).2
        = Except.error (ErrorKind.Msg (internalHistoryMsg code))) := by
  unfold TexEngine.process
  simp only [hf, hi, Bool.and_self, if_true]
  refine ⟨?_, ?_, ?_, ?_, ?_⟩
  · intro h0; simp [h0]
  · intro h1; simp [h1]
  · intro h2; simp [h2]
  · intro h3; simp [h3]
  · intro h0 h1 h2 h3; simp [h0, h1, h2, h3]

theorem c1_completion_code_mapping_witness :
    cstringOk "latex" = true ∧ cstringOk "texput.tex" = true ∧
    (TexEngine.default.process ⟨false, false⟩ "latex" "texput.tex" 3 "boom").2
      = Except.error (ErrorKind.Msg "boom") :=
  ⟨by decide, by decide,
    (c1_completion_code_mapping TexEngine.default ⟨false, false⟩ "latex" "texput.tex" 3 "boom"
      (by decide) (by decide)).2.2.2.1 rfl⟩

/-- C3: the `halt_on_error_p` variable pushed into the engine is 0
whenever `continue_on_errors` is set in the unstable options, regardless
of the engine's own `halt_on_error` setting; otherwise it equals the
engine's `halt_on_error` setting. -/
theorem c3_continue_on_errors_override (e : TexEngine) (u : UnstableOptions)
    (fmt inp : String) (code : Int) (msg : String)
    (hf : cstringOk fmt = true) (hi : cstringOk inp = true) :
    (u.continue_on_errors = true →
      findSetVar "halt_on_error_p" (e.process u fmt inp code msg).1 = some 0) ∧
    (u.continue_on_errors = false →
      findSetVar "halt_on_error_p" (e.process u fmt inp code msg).1
        = some (if e.halt_on_error then 1 else 0)) := by
  unfold TexEngine.process
  simp only [hf, hi, Bool.and_self, if_true]
  constructor
  · intro hc; simp [hc, findSetVar]
  · intro hc; simp [hc, findSetVar]

theorem c3_continue_on_errors_override_witness :
    cstringOk "latex" = true ∧
    findSetVar "halt_on_error_p"
      ((TexEngine.default.process ⟨true, false⟩ "latex" "texput.tex" 0 "").1) = some 0 :=
  ⟨by decide,
    (c3_continue_on_errors_override TexEngine.default ⟨true, false⟩ "latex" "texput.tex" 0 ""
      (by decide) (by decide)).1 rfl⟩

/-- C6: on completion code 3 the fatal message is fetched strictly before
the engine lock is released: the call's trace ends with the
`tt_get_error_message` fetch immediately followed by the lock release,
and the fetched message is the one carried by the returned error. -/
theorem c6_fatal_message_fetched_under_lock (e : TexEngine) (u : UnstableOptions)
    (fmt inp : String) (msg : String)
    (hf : cstringOk fmt = true) (hi : cstringOk inp = true) :
    (∃ pre, (e.process u fmt inp 3 msg).1 = pre ++ [PEvent.getErrorMessage, PEvent.release]) ∧
    (e.process u fmt inp 3 msg).2 = Except.error (ErrorKind.Msg msg) := by
  unfold TexEngine.process
  simp only [hf, hi, Bool.and_self, if_true]
  constructor
  · exact ⟨[PEvent.acquire,
      PEvent.setVar "halt_on_error_p"
        (if (if u.continue_on_errors then false else e.halt_on_error) then (1 : Int) else 0),
      PEvent.setVar "shell_escape_enabled" (boolToInt u.shell_escape),
      PEvent.setVar "in_initex_mode" (boolToInt e.initex_mode),
      PEvent.setVar "synctex_enabled" (boolToInt e.synctex_enabled),
      PEvent.setVar "semantic_pagination_enabled" (boolToInt e.semantic_pagination_enabled),
      PEvent.callEngine fmt inp e.build_date], by simp⟩
  · simp

theorem c6_fatal_message_fetched_under_lock_witness :
    cstringOk "latex" = true ∧
    (∃ pre, (TexEngine.default.process ⟨false, false⟩ "latex" "texput.tex" 3 "boom").1
        = pre ++ [PEvent.getErrorMessage, PEvent.release]) :=
  ⟨by decide,
    (c6_fatal_message_fetched_under_lock TexEngine.default ⟨false, false⟩ "latex" "texput.tex"
      "boom" (by decide) (by decide)).1⟩

/-- C2: at most one engine invocation is in flight at any time. Any
lock-respecting schedule of two `TexEngine::process` calls on two threads
is fully serialized: one call's whole trace precedes the other's, so the
two invocations never overlap in execution. -/
theorem c2_engine_lock_mutual_exclusion
    (e1 e2 : TexEngine) (u1 u2 : UnstableOptions)
    (f1 i1 f2 i2 : String) (k1 k2 : Int) (m1 m2 : String)
    (s : List (Bool × PEvent))
    (hSA : projT false s = (e1.process u1 f1 i1 k1 m1).1)
    (hSB : projT true s = (e2.process u2 f2 i2 k2 m2).1)
    (hV : lockValid none s = true) :
    s = tagT false (e1.process u1 f1 i1 k1 m1).1 ++ tagT true (e2.process u2 f2 i2 k2 m2).1 ∨
    s = tagT true (e2.process u2 f2 i2 k2 m2).1 ++ tagT false (e1.process u1 f1 i1 k1 m1).1 :=
  lock_serializes _ _ s
    (process_criticalSection e1 u1 f1 i1 k1 m1)
    (process_criticalSection e2 u2 f2 i2 k2 m2)
    hSA hSB hV

theorem c2_engine_lock_mutual_exclusion_witness :
    (projT false
        (tagT false (TexEngine.default.process ⟨false, false⟩ "f" "i" 0 "").1 ++
         tagT true (TexEngine.default.process ⟨false, false⟩ "f" "i" 0 "").1)
      = (TexEngine.default.process ⟨false, false⟩ "f" "i" 0 "").1) ∧
    ((tagT false (TexEngine.default.process ⟨false, false⟩ "f" "i" 0 "").1 ++
      tagT true (TexEngine.default.process ⟨false, false⟩ "f" "i" 0 "").1)
        = tagT false (TexEngine.default.process ⟨false, false⟩ "f" "i" 0 "").1 ++
          tagT true (TexEngine.default.process ⟨false, false⟩ "f" "i" 0 "").1 ∨
     (tagT false (TexEngine.default.process ⟨false, false⟩ "f" "i" 0 "").1 ++
      tagT true (TexEngine.default.process ⟨false, false⟩ "f" "i" 0 "").1)
        = tagT true (TexEngine.default.process ⟨false, false⟩ "f" "i" 0 "").1 ++
          tagT false (TexEngine.default.process ⟨false, false⟩ "f" "i" 0 "").1) :=
  ⟨by decide,
    c2_engine_lock_mutual_exclusion TexEngine.default TexEngine.default
      ⟨false, false⟩ ⟨false, false⟩ "f" "i" "f" "i" 0 0 "" ""
      (tagT false (TexEngine.default.process ⟨false, false⟩ "f" "i" 0 "").1 ++
       tagT true (TexEngine.default.process ⟨false, false⟩ "f" "i" 0 "").1)
      (by decide) (by decide) (by decide)⟩

/-! ### Claims about the status backends -/

/-- C4: with chatter level Minimal, both backends drop every Note-kind
`ereport` and every `note_highlighted` call (including the guard inside
`TermcolorStatusBackend::styled`), but still emit Warning- and
Error-kind messages. -/
theorem c4_minimal_chatter_suppresses_notes (err : ErrorC)
    (before highlighted after text : String) :
    (PlainStatusBackend.mk ChatterLevel.Minimal).ereport MessageKind.Note err = [] ∧
    (PlainStatusBackend.mk ChatterLevel.Minimal).note_highlighted before highlighted after
      = [] ∧
    (PlainStatusBackend.mk ChatterLevel.Minimal).ereport MessageKind.Warning err ≠ [] ∧
    (PlainStatusBackend.mk ChatterLevel.Minimal).ereport MessageKind.Error err ≠ [] ∧
    (TermcolorStatusBackend.mk ChatterLevel.Minimal).ereport MessageKind.Note err = [] ∧
    (TermcolorStatusBackend.mk ChatterLevel.Minimal).styled MessageKind.Note text = [] ∧
    (TermcolorStatusBackend.mk ChatterLevel.Minimal).note_highlighted before highlighted after
      = [] ∧
    (TermcolorStatusBackend.mk ChatterLevel.Minimal).ereport MessageKind.Warning err ≠ [] ∧
    (TermcolorStatusBackend.mk ChatterLevel.Minimal).ereport MessageKind.Error err ≠ [] := by
  refine ⟨?_, ?_, ?_, ?_, ?_, ?_, ?_, ?_, ?_⟩
  · simp [PlainStatusBackend.ereport, ChatterLevel.toNat]
  · simp [PlainStatusBackend.note_highlighted, ChatterLevel.toNat]
  · simp [PlainStatusBackend.ereport, ChatterLevel.toNat, ErrorC.iter, ereportLoop]
  · simp [PlainStatusBackend.ereport, ChatterLevel.toNat, ErrorC.iter, ereportLoop]
  · simp [TermcolorStatusBackend.ereport, ChatterLevel.toNat]
  · simp [TermcolorStatusBackend.styled, ChatterLevel.toNat]
  · simp [TermcolorStatusBackend.note_highlighted, ChatterLevel.toNat]
  · simp [TermcolorStatusBackend.ereport, ChatterLevel.toNat, ErrorC.iter, tcEreportLoop,
      TermcolorStatusBackend.generic_message, TermcolorStatusBackend.styled,
      TermcolorStatusBackend.with_stream]
  · simp [TermcolorStatusBackend.ereport, ChatterLevel.toNat, ErrorC.iter, tcEreportLoop,
      TermcolorStatusBackend.generic_message, TermcolorStatusBackend.styled,
      TermcolorStatusBackend.with_stream]

theorem reportErrorLoop_causes (cs : List String) :
    reportErrorLoop cs "caused by"
      = cs.map (fun c => (OutStream.stderr, "caused by: " ++ c)) := by
  induction cs with
  | nil => rfl
  | cons c rest ih => simp [reportErrorLoop, ih]

theorem tcReportErrorLoop_causes (b : TermcolorStatusBackend) (cs : List String) :
    tcReportErrorLoop b cs false
      = cs.flatMap (fun c => b.generic_message MessageKind.Error (some "caused by:") c) := by
  induction cs with
  | nil => rfl
  | cons c rest ih => simp [tcReportErrorLoop, ih]

/-- C7: `report_error` of both backends walks the full cause chain in
order: the primary message first, then one message per cause prefixed as
caused-by, then the backtrace dump when one is attached. -/
theorem c7_report_error_walks_cause_chain (bp : PlainStatusBackend)
    (bt : TermcolorStatusBackend) (err : ErrorC) :
    bp.report_error err
      = (OutStream.stderr, "error: " ++ err.message) ::
          (err.causes.map (fun c => (OutStream.stderr, "caused by: " ++ c)) ++
            (match err.backtrace with
             | some tr => [(OutStream.stderr, "debugging: backtrace follows:"),
                           (OutStream.stderr, tr)]
             | none => [])) ∧
    bt.report_error err
      = bt.generic_message MessageKind.Error none err.message ++
          (err.causes.flatMap
            (fun c => bt.generic_message MessageKind.Error (some "caused by:") c) ++
            (match err.backtrace with
             | some tr =>
                 bt.generic_message MessageKind.Error (some "debugging:") "backtrace follows:" ++
                   bt.with_stream MessageKind.Error (tr ++ "\n")
             | none => [])) := by
  constructor
  · simp [PlainStatusBackend.report_error, ErrorC.iter, reportErrorLoop, reportErrorLoop_causes]
  · simp [TermcolorStatusBackend.report_error, ErrorC.iter, tcReportErrorLoop,
      tcReportErrorLoop_causes]

/-! ### Driver helper lemmas -/

theorem innerRun_creates (env : Env) (evs : List DriverEvent) (b : SessionBuilder) :
    DriverEvent.sessionCreate b ∈ (innerRun env evs b).1 := by
  cases hc : env.sessCreate with
  | error e => simp [innerRun, hc]
  | ok u =>
    cases hr : env.runResult with
    | ok u2 => simp [innerRun, hc, hr]
    | error e =>
      cases e with
      | Msg s => simp [innerRun, hc, hr]
      | EngineError g =>
        cases hm : env.memStdout with
        | none => simp [innerRun, hc, hr, hm]
        | some d => simp [innerRun, hc, hr, hm]
      | NulError => simp [innerRun, hc, hr]
      | Other t => simp [innerRun, hc, hr]

theorem innerRun_error_result (env : Env) (evs : List DriverEvent) (b : SessionBuilder)
    (k : ErrorKind) (hc : env.sessCreate = Except.ok ())
    (hr : env.runResult = Except.error k) :
    (innerRun env evs b).2 = DriverOutcome.err k := by
  cases k with
  | Msg s => simp [innerRun, hc, hr]
  | EngineError g =>
    cases hm : env.memStdout with
    | none => simp [innerRun, hc, hr, hm]
    | some d => simp [innerRun, hc, hr, hm]
  | NulError => simp [innerRun, hc, hr]
  | Other t => simp [innerRun, hc, hr]

theorem innerRun_engineError_dumps (env : Env) (evs : List DriverEvent) (b : SessionBuilder)
    (g : String) (d : List Nat)
    (hc : env.sessCreate = Except.ok ())
    (hr : env.runResult = Except.error (ErrorKind.EngineError g))
    (hm : env.memStdout = some d) :
    (innerRun env evs b).1
      = evs ++ [DriverEvent.sessionCreate b, DriverEvent.sessionRun,
          DriverEvent.errorReport
            ("something bad happened inside " ++ g ++ "; its output follows:\n"),
          DriverEvent.dumpErrorLogs d] := by
  simp [innerRun, hc, hr, hm]

theorem innerRun_other_error_trace (env : Env) (evs : List DriverEvent) (b : SessionBuilder)
    (k : ErrorKind)
    (hc : env.sessCreate = Except.ok ())
    (hr : env.runResult = Except.error k)
    (hk : ∀ g, k ≠ ErrorKind.EngineError g) :
    (innerRun env evs b).1
      = evs ++ [DriverEvent.sessionCreate b, DriverEvent.sessionRun] := by
  cases k with
  | Msg s => simp [innerRun, hc, hr]
  | EngineError g => exact absurd rfl (hk g)
  | NulError => simp [innerRun, hc, hr]
  | Other t => simp [innerRun, hc, hr]

theorem notes_have_no_dump (evs : List DriverEvent) (h : evs.all isNoteEvent = true)
    (d : List Nat) : DriverEvent.dumpErrorLogs d ∉ evs := by
  intro hmem
  have := List.all_eq_true.mp h _ hmem
  simp [isNoteEvent] at this

theorem inner_reaches_run (args : CliOptions) (env : Env)
    (ofmt : OutputFormat) (ps : PassSetting) (fcp : String) (p : String) (bd : Nat)
    (hfc : env.formatCachePath = Except.ok fcp)
    (hof : OutputFormat.fromStr args.outfmt = some ofmt)
    (hps : PassSetting.fromStr args.pass = some ps)
    (hin : args.input = some p)
    (hpath : p = "-" ∨ (∃ f par, env.fileName = some f ∧ env.parent = some par))
    (hout : args.outdir = none ∨ env.outdirIsDir = true)
    (hbundle : env.bundleResult = Except.ok ())
    (hsde : (∃ s, env.sourceDateEpoch = some s ∧ parseDecimalU64 s = some bd ∧
              bd < 2 ^ 63) ∨
            (env.sourceDateEpoch = none ∧ bd = env.now)) :
    ∃ evs b, inner args env = innerRun env evs b ∧
      evs.all isNoteEvent = true ∧ b.buildDate = some bd := by
  have hBD : ∀ evs0 b0, evs0.all isNoteEvent = true →
      ∃ evs b, innerBundleAndDate args env evs0 b0 = innerRun env evs b ∧
        evs.all isNoteEvent = true ∧ b.buildDate = some bd := by
    intro evs0 b0 h0
    have hall : (evs0 ++ (if args.only_cached
        then [DriverEvent.note "using only cached resource files"] else [])).all
          isNoteEvent = true := by
      cases hoc : args.only_cached <;> simp_all [isNoteEvent]
    rcases hsde with ⟨s, hs, hn, hlt⟩ | ⟨hs, hbd⟩
    · refine ⟨evs0 ++ (if args.only_cached
          then [DriverEvent.note "using only cached resource files"] else []),
        { { { b0 with printStdout := args.print_stdout,
                      hides := match args.hide with
                        | some items => items
                        | none => [] } with bundleSet := true } with buildDate := some bd },
        ?_, hall, rfl⟩
      simp only [innerBundleAndDate, hbundle, hs, hn]
      rw [if_pos hlt]
    · refine ⟨evs0 ++ (if args.only_cached
          then [DriverEvent.note "using only cached resource files"] else []),
        { { { b0 with printStdout := args.print_stdout,
                      hides := match args.hide with
                        | some items => items
                        | none => [] } with bundleSet := true } with buildDate := some env.now },
        ?_, hall, by rw [hbd]⟩
      simp only [innerBundleAndDate, hbundle, hs]
  have hOD : ∀ evs0 b0, evs0.all isNoteEvent = true →
      ∃ evs b, innerOutdir args env evs0 b0 = innerRun env evs b ∧
        evs.all isNoteEvent = true ∧ b.buildDate = some bd := by
    intro evs0 b0 h0
    cases hd : args.outdir with
    | none =>
        simp only [innerOutdir, hd]
        exact hBD evs0 b0 h0
    | some d =>
        have hdir : env.outdirIsDir = true := by
          rcases hout with h | h
          · rw [hd] at h; cases h
          · exact h
        simp only [innerOutdir, hd, hdir, if_true]
        exact hBD evs0 _ h0
  by_cases hp : p = "-"
  · rw [hp] at hin
    have hnotes : ([DriverEvent.note
        "reading from standard input; outputs will appear under the base name \"texput\""]).all
          isNoteEvent = true := by simp [isNoteEvent]
    simp only [inner, hfc, hof, hps, hin, reduceIte]
    exact hOD _ _ hnotes
  · rcases hpath with h | ⟨fn, par, hfn, hpar⟩
    · exact absurd h hp
    · have hnil : (List.nil : List DriverEvent).all isNoteEvent = true := rfl
      simp only [inner, hfc, hof, hps, hin, hfn, hpar, if_neg hp]
      exact hOD _ _ hnil

/-! ### Claims about the driver -/

/-- C9: invalid configuration aborts before any engine invocation: with
no input, or an input path with no extractable base name or parent
directory, or an explicitly given output directory that is not a
directory, `inner` returns an error and never creates or runs the
processing session. -/
theorem c9_invalid_config_aborts_before_engine (args : CliOptions) (env : Env)
    (ofmt : OutputFormat) (ps : PassSetting)
    (hof : OutputFormat.fromStr args.outfmt = some ofmt)
    (hps : PassSetting.fromStr args.pass = some ps)
    (hbad : args.input = none ∨
      (∃ p, args.input = some p ∧ p ≠ "-" ∧ (env.fileName = none ∨ env.parent = none)) ∨
      (∃ d, args.outdir = some d ∧ env.outdirIsDir = false)) :
    (∃ k, (inner args env).2 = DriverOutcome.err k) ∧
    (∀ b, DriverEvent.sessionCreate b ∉ (inner args env).1) ∧
    DriverEvent.sessionRun ∉ (inner args env).1 := by
  cases hfc : env.formatCachePath with
  | error e => refine ⟨⟨e, ?_⟩, ?_, ?_⟩ <;> simp [inner, hfc]
  | ok fcp =>
      rcases hbad with hin | ⟨p, hin, hne, hfp⟩ | ⟨d, hd, hdir⟩
      · refine ⟨⟨ErrorKind.Msg "No input specified.\n\nFor more information try --help",
          ?_⟩, ?_, ?_⟩ <;> simp [inner, hfc, hof, hps, hin]
      · rcases hfp with hfn | hpar
        · refine ⟨⟨ErrorKind.Msg
              ("cannot figure out a basename for input path \"" ++ p ++ "\""), ?_⟩, ?_, ?_⟩ <;>
            simp [inner, hfc, hof, hps, hin, hne, hfn]
        · cases hfn : env.fileName with
          | none =>
              refine ⟨⟨ErrorKind.Msg
                  ("cannot figure out a basename for input path \"" ++ p ++ "\""),
                ?_⟩, ?_, ?_⟩ <;> simp [inner, hfc, hof, hps, hin, hne, hfn]
          | some f =>
              refine ⟨⟨ErrorKind.Msg
                  ("cannot figure out a parent directory for input path \"" ++ p ++ "\""),
                ?_⟩, ?_, ?_⟩ <;> simp [inner, hfc, hof, hps, hin, hne, hfn, hpar]
      · cases hin : args.input with
        | none =>
            refine ⟨⟨ErrorKind.Msg "No input specified.\n\nFor more information try --help",
              ?_⟩, ?_, ?_⟩ <;> simp [inner, hfc, hof, hps, hin]
        | some p =>
          by_cases hp : p = "-"
          · refine ⟨⟨ErrorKind.Msg ("output directory \"" ++ d ++ "\" does not exist"),
              ?_⟩, ?_, ?_⟩ <;> simp [inner, hfc, hof, hps, hin, hp, innerOutdir, hd, hdir]
          · cases hfn : env.fileName with
            | none =>
                refine ⟨⟨ErrorKind.Msg
                    ("cannot figure out a basename for input path \"" ++ p ++ "\""),
                  ?_⟩, ?_, ?_⟩ <;> simp [inner, hfc, hof, hps, hin, hp, hfn]
            | some f =>
              cases hpar : env.parent with
              | none =>
                  refine ⟨⟨ErrorKind.Msg
                      ("cannot figure out a parent directory for input path \"" ++ p ++ "\""),
                    ?_⟩, ?_, ?_⟩ <;> simp [inner, hfc, hof, hps, hin, hp, hfn, hpar]
              | some par =>
                  refine ⟨⟨ErrorKind.Msg ("output directory \"" ++ d ++ "\" does not exist"),
                    ?_⟩, ?_, ?_⟩ <;>
                    simp [inner, hfc, hof, hps, hin, hp, hfn, hpar, innerOutdir, hd, hdir]

theorem c9_invalid_config_aborts_before_engine_witness :
    argsNoInput.input = none ∧
    ((∃ k, (inner argsNoInput envPinned).2 = DriverOutcome.err k) ∧
     (∀ b, DriverEvent.sessionCreate b ∉ (inner argsNoInput envPinned).1) ∧
     DriverEvent.sessionRun ∉ (inner argsNoInput envPinned).1) :=
  ⟨rfl, c9_invalid_config_aborts_before_engine argsNoInput envPinned
    OutputFormat.pdf PassSetting.default rfl rfl (Or.inl rfl)⟩

/-- C8 counterexample: with `SOURCE_DATE_EPOCH` holding the decimal
integer `2 ^ 63`, the claim as stated fails: instead of configuring a
build date of the Unix epoch plus `2 ^ 63` seconds, the driver panics
with a time overflow at the `checked_add` of `src/bin/tectonic.rs`
lines 180-183, before any session is created (the whole event trace is
the single reading-from-stdin note). -/
theorem c8_build_date_pinned_or_now_counterexample :
    parseDecimalU64 "9223372036854775808" = some (2 ^ 63) ∧
    inner argsStdin envOverflow =
      ([DriverEvent.note
          "reading from standard input; outputs will appear under the base name \"texput\""],
       DriverOutcome.panic "time overflow") :=
  ⟨by decide, by decide⟩

/-- C8 (amended): the build date defaults to the current time when
`SOURCE_DATE_EPOCH` is unset; when the variable holds a decimal integer
`n` that is representable as a system time (`n < 2 ^ 63`, the bound of
the `checked_add` at `src/bin/tectonic.rs` lines 180-183), the
configured build date equals the Unix epoch plus `n` seconds. For
`n ≥ 2 ^ 63` the driver panics with a time overflow before the session
is created (see the counterexample). -/
theorem c8_build_date_pinned_or_now (args : CliOptions) (env : Env)
    (ofmt : OutputFormat) (ps : PassSetting) (fcp : String) (p : String) (bd : Nat)
    (hfc : env.formatCachePath = Except.ok fcp)
    (hof : OutputFormat.fromStr args.outfmt = some ofmt)
    (hps : PassSetting.fromStr args.pass = some ps)
    (hin : args.input = some p)
    (hpath : p = "-" ∨ (∃ f par, env.fileName = some f ∧ env.parent = some par))
    (hout : args.outdir = none ∨ env.outdirIsDir = true)
    (hbundle : env.bundleResult = Except.ok ())
    (hsde : (∃ s, env.sourceDateEpoch = some s ∧ parseDecimalU64 s = some bd ∧
              bd < 2 ^ 63) ∨
            (env.sourceDateEpoch = none ∧ bd = env.now)) :
    ∃ b, DriverEvent.sessionCreate b ∈ (inner args env).1 ∧ b.buildDate = some bd := by
  obtain ⟨evs, b, heq, _, hbd⟩ :=
    inner_reaches_run args env ofmt ps fcp p bd hfc hof hps hin hpath hout hbundle hsde
  exact ⟨b, by rw [heq]; exact innerRun_creates env evs b, hbd⟩

theorem c8_build_date_pinned_or_now_witness :
    envPinned.sourceDateEpoch = some "1234" ∧ parseDecimalU64 "1234" = some 1234 ∧
    (∃ b, DriverEvent.sessionCreate b ∈ (inner argsStdin envPinned).1 ∧
      b.buildDate = some 1234) :=
  ⟨rfl, by decide,
    c8_build_date_pinned_or_now argsStdin envPinned OutputFormat.pdf PassSetting.default
      "cache" "-" 1234 rfl rfl rfl rfl (Or.inl rfl) (Or.inl rfl) rfl
      (Or.inl ⟨"1234", rfl, by decide, by decide⟩)⟩

/-- C5: when the session run fails, the driver returns that error; if and
only if its kind is `EngineError` (and the in-memory stdout entry
exists), the captured chatter bytes are dumped via `dump_error_logs`
before returning; for any other kind no dump happens. -/
theorem c5_engine_error_dumps_chatter (args : CliOptions) (env : Env)
    (ofmt : OutputFormat) (ps : PassSetting) (fcp : String) (p : String) (bd : Nat)
    (k : ErrorKind)
    (hfc : env.formatCachePath = Except.ok fcp)
    (hof : OutputFormat.fromStr args.outfmt = some ofmt)
    (hps : PassSetting.fromStr args.pass = some ps)
    (hin : args.input = some p)
    (hpath : p = "-" ∨ (∃ f par, env.fileName = some f ∧ env.parent = some par))
    (hout : args.outdir = none ∨ env.outdirIsDir = true)
    (hbundle : env.bundleResult = Except.ok ())
    (hsde : (∃ s, env.sourceDateEpoch = some s ∧ parseDecimalU64 s = some bd ∧
              bd < 2 ^ 63) ∨
            (env.sourceDateEpoch = none ∧ bd = env.now))
    (hcreate : env.sessCreate = Except.ok ())
    (hrun : env.runResult = Except.error k) :
    ((inner args env).2 = DriverOutcome.err k) ∧
    (∀ g d, k = ErrorKind.EngineError g → env.memStdout = some d →
        DriverEvent.dumpErrorLogs d ∈ (inner args env).1) ∧
    ((∀ g, k ≠ ErrorKind.EngineError g) →
        ∀ d, DriverEvent.dumpErrorLogs d ∉ (inner args env).1) := by
  obtain ⟨evs, b, heq, hnotes, _⟩ :=
    inner_reaches_run args env ofmt ps fcp p bd hfc hof hps hin hpath hout hbundle hsde
  refine ⟨?_, ?_, ?_⟩
  · rw [heq]
    exact innerRun_error_result env evs b k hcreate hrun
  · intro g d hkg hm
    rw [heq, innerRun_engineError_dumps env evs b g d hcreate (hkg ▸ hrun) hm]
    simp
  · intro hk d
    rw [heq, innerRun_other_error_trace env evs b k hcreate hrun hk]
    intro hmem
    rcases List.mem_append.mp hmem with h | h
    · exact notes_have_no_dump evs hnotes d h
    · simp at h

theorem c5_engine_error_dumps_chatter_witness :
    envEngineError.runResult = Except.error (ErrorKind.EngineError "xetex") ∧
    DriverEvent.dumpErrorLogs [104, 105] ∈ (inner argsStdin envEngineError).1 :=
  ⟨rfl,
    (c5_engine_error_dumps_chatter argsStdin envEngineError OutputFormat.pdf
      PassSetting.default "cache" "-" 1234 (ErrorKind.EngineError "xetex")
      rfl rfl rfl rfl (Or.inl rfl) (Or.inl rfl) rfl
      (Or.inl ⟨"1234", rfl, by decide, by decide⟩) rfl rfl).2.1
      "xetex" [104, 105] rfl rfl⟩

end Tectonic
